import Mathlib

/-!
# Verification of the PixiJS `ShaderSystem` (shader binding and uniform synchronization)

A shallow embedding of `ShaderSystem` from the repository source. JavaScript
objects used as string- or number-keyed maps become association lists; object
identity of `Program`, `UniformGroup` and `Shader` instances becomes a `Nat`
key into the system state (PixiJS assigns each such object a unique numeric
`id` from a module-level UID counter, and `this.program !== program` compares
object identity, which coincides with `id` equality). GPU side effects
(`gl.useProgram`, `compileProgram`, invoking a generated sync routine) are
recorded as events in a trace. A thrown `TypeError` (null dereference) is
modelled as `Option.none`.
-/

namespace Pixi

/-- Update (or insert) the binding of key `k` in an association list, the
semantics of the JavaScript assignment `obj[k] = v`. -/
def alSet {α β : Type} [BEq α] (k : α) (v : β) : List (α × β) → List (α × β)
  | [] => [(k, v)]
  | (k', v') :: rest => if k == k' then (k, v) :: rest else (k', v') :: alSet k v rest

/-- A `GLProgram` (per-context compiled program): the opaque GPU program
handle, and `uniformGroups`, the map from a `UniformGroup` id to the dirtyId
last recorded when that group was synchronized against this program. -/
structure GLProgram where
  program : Nat
  uniformGroups : List (Nat × Nat)
deriving DecidableEq, Repr

/-- A `Program` (ShaderProgram): its introspected uniform metadata
(`uniformData`, name to declared type tag) and `glPrograms`, the per-context
cache mapping a context UID to the `GLProgram` compiled under that context.
The program's unique `id` is the key under which it is stored in
`SSState.programs`. -/
structure Program where
  uniformData : List (String × String)
  glPrograms : List (Nat × GLProgram)
deriving DecidableEq, Repr

/-- A `UniformGroup`: its members (`uniforms`, name to current value, in the
object's iteration order), the `static` flag, the monotone `dirtyId` counter,
and `syncUniforms`, the per-program cache mapping a program id to the sync
routine generated for this group against that program. Routines are
identified by the `Nat` id under which they were generated. The group's
unique `id` is the key under which it is stored in `SSState.groups`. -/
structure UniformGroup where
  uniforms : List (String × Nat)
  static : Bool
  dirtyId : Nat
  syncUniforms : List (Nat × Nat)
deriving DecidableEq, Repr

/-- A `Shader`: a usage-site wrapper referencing one program and one uniform
group by id. `id` is the shader instance's own identity; two distinct
`Shader` objects may share one `programId`. -/
structure ShaderRef where
  id : Nat
  programId : Nat
  groupId : Nat
deriving DecidableEq, Repr

/-- GPU-visible effects recorded by the model:
`useProgram h` is `gl.useProgram` on handle `h`; `compileProgram pid` is one
invocation of the program compiler for program `pid`; `runSync r h g` is one
invocation of sync routine `r` against the `GLProgram` with handle `h` for
group `g` (the uniform upload). -/
inductive Event where
  | useProgram (handle : Nat)
  | compileProgram (programId : Nat)
  | runSync (routine : Nat) (handle : Nat) (groupId : Nat)
deriving DecidableEq, Repr

/-- The `ShaderSystem` state together with the object heap it mutates:
`programs` and `groups` hold the live `Program` / `UniformGroup` objects
keyed by their ids; `shader` and `program` are the system's currently-bound
tracking fields (`this.shader`, `this.program`); `cache` is the global
signature-keyed sync-routine cache (`this.cache`); `contextUID` is
`this.renderer.CONTEXT_UID`; `nextRoutineId` and `nextHandle` supply fresh
identities for generated routines and compiled GPU handles. -/
structure SSState where
  programs : List (Nat × Program)
  groups : List (Nat × UniformGroup)
  shader : Option ShaderRef
  program : Option Nat
  cache : List (String × Nat)
  contextUID : Nat
  nextRoutineId : Nat
  nextHandle : Nat
deriving DecidableEq, Repr

/-- The string list built by `getSignature`'s loop: for each member name of
the group, push the name, and push the introspected type when
`uniformData[i]` is present. -/
def sigStrings (uniforms : List (String × Nat)) (uniformData : List (String × String)) :
    List String :=
  match uniforms with
  | [] => []
  | (n, _) :: rest =>
    match uniformData.lookup n with
    | some t => n :: t :: sigStrings rest uniformData
    | none => n :: sigStrings rest uniformData

/-- `getSignature(group, uniformData)`: the member names interleaved with
the introspected types of the members the program declares, joined with
`'-'`. -/
def getSignature (group : UniformGroup) (uniformData : List (String × String)) : String :=
  String.intercalate "-" (sigStrings group.uniforms uniformData)

/-- `systemCheck()`. Modelled from the spec: `unsafeEvalSupported` lives in
`./utils`, outside the provided sources; it reports whether the host
environment allows dynamic code generation and is passed here as a flag.
When it is `false` the constructor's validation throws. -/
def systemCheck (unsafeEvalSupported : Bool) : Except String Unit :=
  if !unsafeEvalSupported then
    Except.error ("Current environment does not allow unsafe-eval, "
      ++ "please use @pixi/unsafe-eval module to enable support.")
  else
    Except.ok ()

/-- The `ShaderSystem` constructor: runs `systemCheck` first (throwing when
unsafe-eval is unavailable), then initializes `shader`, `program` to null
and `cache` to the empty object. The object heap starts empty. -/
def constructShaderSystem (unsafeEvalSupported : Bool) : Except String SSState :=
  match systemCheck unsafeEvalSupported with
  | Except.error e => Except.error e
  | Except.ok _ =>
    Except.ok { programs := [], groups := [], shader := none, program := none,
                cache := [], contextUID := 0, nextRoutineId := 0, nextHandle := 0 }

/-- `reset()`: clears the bound-program and bound-shader tracking state and
nothing else. -/
def reset (s : SSState) : SSState :=
  { s with program := none, shader := none }

/-- `contextChange(gl)`: stores the new context and resets the bound-state
tracking. Modelled from the spec: the context identity
(`renderer.CONTEXT_UID`) is maintained by the renderer's context system,
outside the provided sources, and is updated with the change notification,
so the new identity is taken here as the argument. -/
def contextChange (s : SSState) (newContextUID : Nat) : SSState :=
  reset { s with contextUID := newContextUID }

/-- `getglProgram()`: `this.shader.program.glPrograms[CONTEXT_UID]`, or null
when no shader is bound. -/
def getglProgram (s : SSState) : Option GLProgram :=
  match s.shader with
  | none => none
  | some sh =>
    match s.programs.lookup sh.programId with
    | none => none
    | some p => p.glPrograms.lookup s.contextUID

/-- `generateShader(shader)` with the already-resolved `Program` passed in
(the source reads it from `shader.program`): invokes `compileProgram` (one
`compileProgram` event, yielding a fresh GPU handle), introspects uniform
locations, creates the `GLProgram` and stores it in
`program.glPrograms[CONTEXT_UID]`. -/
def generateShader (s : SSState) (programId : Nat) (p : Program) :
    SSState × List Event × GLProgram :=
  let glProg : GLProgram := { program := s.nextHandle, uniformGroups := [] }
  let p' : Program := { p with glPrograms := alSet s.contextUID glProg p.glPrograms }
  ({ s with programs := alSet programId p' s.programs, nextHandle := s.nextHandle + 1 },
   [Event.compileProgram programId], glProg)

/-- `createSyncGroups(group)`: computes the group's signature against the
bound program's `uniformData`, fills the global `cache` on a miss
(`generateUniformsSync` lives in `./utils`, outside the provided sources; it
is modelled as producing a routine with a fresh identity), stores the
routine in `group.syncUniforms[this.shader.program.id]` and returns it.
`none` models the `TypeError` thrown when `this.shader` is null or the heap
has no such group or program. -/
def createSyncGroups (s : SSState) (groupId : Nat) : Option (SSState × Nat) :=
  match s.shader with
  | none => none
  | some sh =>
    match s.programs.lookup sh.programId, s.groups.lookup groupId with
    | some p, some group =>
      match s.cache.lookup (getSignature group p.uniformData) with
      | some r =>
        some ({ s with groups :=
                  alSet groupId { group with syncUniforms := alSet sh.programId r group.syncUniforms } s.groups }, r)
      | none =>
        some ({ s with
                  cache := alSet (getSignature group p.uniformData) s.nextRoutineId s.cache,
                  nextRoutineId := s.nextRoutineId + 1,
                  groups :=
                    alSet groupId { group with syncUniforms := alSet sh.programId s.nextRoutineId group.syncUniforms } s.groups }, s.nextRoutineId)
    | _, _ => none

/-- `syncUniforms(group, glProgram)`: fetches the routine from
`group.syncUniforms[this.shader.program.id]`, generating it via
`createSyncGroups` on a miss, then invokes it (one `runSync` event: the
unconditional uniform upload against `glProgram`). -/
def syncUniforms (s : SSState) (groupId : Nat) (glProgram : GLProgram) :
    Option (SSState × List Event) :=
  match s.shader with
  | none => none
  | some sh =>
    match s.groups.lookup groupId with
    | none => none
    | some group =>
      match group.syncUniforms.lookup sh.programId with
      | some r => some (s, [Event.runSync r glProgram.program groupId])
      | none =>
        match createSyncGroups s groupId with
        | none => none
        | some (s', r) => some (s', [Event.runSync r glProgram.program groupId])

/-- `syncUniformGroup(group)`: looks up the bound `GLProgram` (the inlined
matches are exactly `getglProgram()`), and when the group is not static or
its `dirtyId` differs from the value recorded in
`glProgram.uniformGroups[group.id]`, records the current `dirtyId` there and
performs the upload via `syncUniforms`; otherwise does nothing. `none`
models the `TypeError` when `getglProgram()` yields null (no bound shader or
no compiled program for the current context). -/
def syncUniformGroup (s : SSState) (groupId : Nat) : Option (SSState × List Event) :=
  match s.groups.lookup groupId with
  | none => none
  | some group =>
    match s.shader with
    | none => none
    | some sh =>
      match s.programs.lookup sh.programId with
      | none => none
      | some p =>
        match p.glPrograms.lookup s.contextUID with
        | none => none
        | some glProgram =>
          if group.static = false ∨ glProgram.uniformGroups.lookup groupId ≠ some group.dirtyId then
            let glProgram' : GLProgram :=
              { glProgram with uniformGroups := alSet groupId group.dirtyId glProgram.uniformGroups }
            let p' : Program := { p with glPrograms := alSet s.contextUID glProgram' p.glPrograms }
            syncUniforms { s with programs := alSet sh.programId p' s.programs } groupId glProgram'
          else
            some (s, [])

/-- The middle of `bind`: `this.shader` has just been set; issue
`gl.useProgram` and update `this.program` exactly when the resolved program
is not the currently tracked one (identity comparison `this.program !==
program`). -/
def bindSwitch (s2 : SSState) (shader : ShaderRef) (glProgram : GLProgram) :
    SSState × List Event :=
  if s2.program ≠ some shader.programId then
    ({ s2 with program := some shader.programId }, [Event.useProgram glProgram.program])
  else
    (s2, [])

/-- The tail of `bind`: unless `dontSync`, synchronize the shader's uniform
group. `ev12` is the trace accumulated so far. -/
def bindSync (s3 : SSState) (ev12 : List Event) (glProgram : GLProgram)
    (shader : ShaderRef) (dontSync : Bool) : Option (SSState × List Event × GLProgram) :=
  if dontSync then
    some (s3, ev12, glProgram)
  else
    match syncUniformGroup s3 shader.groupId with
    | none => none
    | some (s4, ev3) => some (s4, ev12 ++ ev3, glProgram)

/-- `bind(shader, dontSync)`: resolves the `GLProgram` for
`(shader.program, CONTEXT_UID)`, compiling via `generateShader` on a miss;
sets `this.shader`; issues `gl.useProgram` exactly when `this.program` is
not the same program object (identity, i.e. id, comparison) and updates
`this.program`; then synchronizes `shader.uniformGroup` unless `dontSync`.
Returns the resolved `GLProgram`. (The `shader.uniforms.globals` injection
touches only the shader's own uniform object, which this model does not
track.) -/
def bind (s : SSState) (shader : ShaderRef) (dontSync : Bool) :
    Option (SSState × List Event × GLProgram) :=
  match s.programs.lookup shader.programId with
  | none => none
  | some p =>
    match p.glPrograms.lookup s.contextUID with
    | some gp =>
      let st := bindSwitch { s with shader := some shader } shader gp
      bindSync st.1 st.2 gp shader dontSync
    | none =>
      let gen := generateShader s shader.programId p
      let st := bindSwitch { gen.1 with shader := some shader } shader gen.2.2
      bindSync st.1 (gen.2.1 ++ st.2) gen.2.2 shader dontSync

/-- `setUniforms(uniforms)`: reads `this.shader.program` (throwing a
`TypeError`, i.e. `none`, when no shader is bound), fetches its `GLProgram`
for the current context (throwing when absent), and uploads the supplied
values against it via `syncUniforms` (one `runSync` event with routine id 0
standing for the program's own `syncUniforms` routine). -/
def setUniforms (s : SSState) : Option (List Event) :=
  match s.shader with
  | none => none
  | some sh =>
    match s.programs.lookup sh.programId with
    | none => none
    | some p =>
      match p.glPrograms.lookup s.contextUID with
      | none => none
      | some glProgram => some [Event.runSync 0 glProgram.program sh.groupId]

/-- `true` exactly for `gl.useProgram` events. -/
def isUseProgram : Event → Bool
  | Event.useProgram _ => true
  | _ => false

/-- `true` exactly for program-compilation events. -/
def isCompile : Event → Bool
  | Event.compileProgram _ => true
  | _ => false

/-- Number of `gl.useProgram` calls in a trace. -/
def countUse (ev : List Event) : Nat := (ev.filter isUseProgram).length

/-- Number of program compilations in a trace. -/
def countCompile (ev : List Event) : Nat := (ev.filter isCompile).length

/-- Number of sync-routine invocations (uniform uploads) in a trace. -/
def countSync (ev : List Event) : Nat :=
  (ev.filter (fun e => match e with | Event.runSync _ _ _ => true | _ => false)).length

/-- A small concrete world for witnesses: program 0 declares one float
uniform `u` and is compiled for context 10 as GPU handle 200. -/
def wGLProgram : GLProgram := { program := 200, uniformGroups := [] }

/-- The concrete program of the witness world. -/
def wProgram : Program :=
  { uniformData := [("u", "float")], glPrograms := [(10, wGLProgram)] }

/-- The concrete static uniform group (id 0) of the witness world. -/
def wGroup : UniformGroup :=
  { uniforms := [("u", 5)], static := true, dirtyId := 3, syncUniforms := [] }

/-- The concrete shader of the witness world. -/
def wShader : ShaderRef := { id := 0, programId := 0, groupId := 0 }

/-- Witness state: shader 0 bound, its program compiled for the current
context 10, group 0 never synchronized, empty global cache. -/
def wState : SSState :=
  { programs := [(0, wProgram)], groups := [(0, wGroup)], shader := some wShader,
    program := some 0, cache := [], contextUID := 10, nextRoutineId := 100,
    nextHandle := 201 }

/-- `wState` after one `syncUniformGroup` of group 0: dirtyId 3 recorded,
routine 100 generated and cached both globally and on the group. -/
def wStateSynced : SSState :=
  { programs := [(0, { uniformData := [("u", "float")], glPrograms := [(10, { program := 200, uniformGroups := [(0, 3)] })] })],
    groups := [(0, { uniforms := [("u", 5)], static := true, dirtyId := 3, syncUniforms := [(0, 100)] })],
    shader := some wShader, program := some 0, cache := [("u-float", 100)],
    contextUID := 10, nextRoutineId := 101, nextHandle := 201 }

/-- `wState` after one `createSyncGroups` of group 0: routine 100 in the
global cache and on the group, program heap untouched. -/
def wStateRoutine : SSState :=
  { programs := [(0, wProgram)],
    groups := [(0, { uniforms := [("u", 5)], static := true, dirtyId := 3, syncUniforms := [(0, 100)] })],
    shader := some wShader, program := some 0, cache := [("u-float", 100)],
    contextUID := 10, nextRoutineId := 101, nextHandle := 201 }

/-- A bare program with no uniforms and nothing compiled, for the bind
witnesses. -/
def cProg : Program := { uniformData := [], glPrograms := [] }

/-- Shader A of the bind witnesses (program 0). -/
def cA : ShaderRef := { id := 0, programId := 0, groupId := 0 }

/-- A second, distinct shader instance also referencing program 0. -/
def cA2 : ShaderRef := { id := 5, programId := 0, groupId := 0 }

/-- Shader B of the bind witnesses (program 1). -/
def cB : ShaderRef := { id := 1, programId := 1, groupId := 1 }

/-- Initial state of the bind-sequence witnesses: two uncompiled programs,
nothing bound. -/
def cS0 : SSState :=
  { programs := [(0, cProg), (1, cProg)], groups := [], shader := none,
    program := none, cache := [], contextUID := 0, nextRoutineId := 0,
    nextHandle := 50 }

/-- `cS0` after `bind(A)`: program 0 compiled as handle 50 and bound. -/
def cS1 : SSState :=
  { programs := [(0, { uniformData := [], glPrograms := [(0, { program := 50, uniformGroups := [] })] }), (1, cProg)],
    groups := [], shader := some cA, program := some 0, cache := [],
    contextUID := 0, nextRoutineId := 0, nextHandle := 51 }

/-- `cS1` after `bind(A2)` (the distinct shader sharing program 0): only
the bound-shader tracking changes. -/
def cS2A : SSState :=
  { programs := [(0, { uniformData := [], glPrograms := [(0, { program := 50, uniformGroups := [] })] }), (1, cProg)],
    groups := [], shader := some cA2, program := some 0, cache := [],
    contextUID := 0, nextRoutineId := 0, nextHandle := 51 }

/-- `cS1` after `bind(B)`: program 1 compiled as handle 51 and bound. -/
def cS3 : SSState :=
  { programs := [(0, { uniformData := [], glPrograms := [(0, { program := 50, uniformGroups := [] })] }),
      (1, { uniformData := [], glPrograms := [(0, { program := 51, uniformGroups := [] })] })],
    groups := [], shader := some cB, program := some 1, cache := [],
    contextUID := 0, nextRoutineId := 0, nextHandle := 52 }

/-- `cS3` after `bind(A)` again: shader A re-bound with no compilation. -/
def cS4 : SSState :=
  { programs := [(0, { uniformData := [], glPrograms := [(0, { program := 50, uniformGroups := [] })] }),
      (1, { uniformData := [], glPrograms := [(0, { program := 51, uniformGroups := [] })] })],
    groups := [], shader := some cA, program := some 0, cache := [],
    contextUID := 0, nextRoutineId := 0, nextHandle := 52 }

/-- A program compiled under context 0 as handle 7, for the context-loss
witness. -/
def dProg : Program :=
  { uniformData := [], glPrograms := [(0, { program := 7, uniformGroups := [] })] }

/-- Context-loss witness state: `dProg` live under context 0. -/
def dS : SSState :=
  { programs := [(0, dProg)], groups := [], shader := some cA, program := some 0,
    cache := [], contextUID := 0, nextRoutineId := 0, nextHandle := 30 }

/-- `dS` after `contextChange 1` followed by `bind(A)`: a fresh handle 30
compiled and stored under context 1, the context-0 entry untouched. -/
def dSPost : SSState :=
  { programs := [(0, { uniformData := [], glPrograms := [(0, { program := 7, uniformGroups := [] }), (1, { program := 30, uniformGroups := [] })] })],
    groups := [], shader := some cA, program := some 0, cache := [],
    contextUID := 1, nextRoutineId := 0, nextHandle := 31 }

/-- Looking up the key just written by `alSet` yields the written value. -/
lemma alSet_lookup_self {α β : Type} [BEq α] [LawfulBEq α] (k : α) (v : β) :
    ∀ l : List (α × β), (alSet k v l).lookup k = some v
  | [] => by simp [alSet, List.lookup]
  | (a, b) :: rest => by
    cases hka : k == a with
    | true => simp [alSet, hka, List.lookup]
    | false => simp [alSet, hka, List.lookup, alSet_lookup_self k v rest]

/-- `alSet` leaves the lookup of every other key unchanged. -/
lemma alSet_lookup_ne {α β : Type} [BEq α] [LawfulBEq α] (k k' : α) (v : β) (h : k' ≠ k) :
    ∀ l : List (α × β), (alSet k v l).lookup k' = l.lookup k'
  | [] => by simp [alSet, List.lookup, beq_eq_false_iff_ne.mpr h]
  | (a, b) :: rest => by
    cases hka : k == a with
    | true =>
      have hk : k = a := eq_of_beq hka
      subst hk
      simp [alSet, List.lookup, beq_eq_false_iff_ne.mpr h]
    | false =>
      simp [alSet, hka, List.lookup, alSet_lookup_ne k k' v h rest]

/-- A successful association-list lookup exhibits a member of the list. -/
lemma lookup_mem {α β : Type} [BEq α] [LawfulBEq α] {k : α} {v : β} :
    ∀ {l : List (α × β)}, l.lookup k = some v → (k, v) ∈ l
  | [], h => by simp [List.lookup] at h
  | (a, b) :: rest, h => by
    cases hka : k == a with
    | true =>
      have hk : k = a := eq_of_beq hka
      subst hk
      simp [List.lookup] at h
      simp [h]
    | false =>
      simp [List.lookup, hka] at h
      exact List.mem_cons_of_mem _ (lookup_mem h)

/-- `sigStrings` reads only the member names and the types the respective
`uniformData` assigns to them: two member lists with the same names, looked
up in tables that agree on those names, produce the same string list. -/
lemma sigStrings_eq_of_names_eq :
    ∀ (l1 l2 : List (String × Nat)) (ud1 ud2 : List (String × String)),
    l1.map Prod.fst = l2.map Prod.fst →
    (∀ n ∈ l1.map Prod.fst, ud1.lookup n = ud2.lookup n) →
    sigStrings l1 ud1 = sigStrings l2 ud2
  | [], [], _, _, _, _ => rfl
  | [], _ :: _, _, _, h, _ => by simp at h
  | _ :: _, [], _, _, h, _ => by simp at h
  | a :: t1, b :: t2, ud1, ud2, h, hud => by
    simp only [List.map_cons, List.cons.injEq] at h
    obtain ⟨h1, h2⟩ := h
    have hlook : ud1.lookup a.1 = ud2.lookup a.1 := hud a.1 (by simp)
    have htail : ∀ n ∈ t1.map Prod.fst, ud1.lookup n = ud2.lookup n := by
      intro n hn
      exact hud n (by simp [hn])
    have hrec := sigStrings_eq_of_names_eq t1 t2 ud1 ud2 h2 htail
    rw [h1] at hlook
    simp only [sigStrings, h1, hrec, hlook]

/-- Claim C2: for any two UniformGroups whose members have identical names
in identical iteration order and identical corresponding introspected types
in the program's uniformData, `getSignature` returns identical signature
keys, regardless of the members' current values. (The values are the second
components of `uniforms`; the hypotheses constrain only the names and the
type lookups.) -/
theorem getSignature_value_independent (g1 g2 : UniformGroup)
    (ud1 ud2 : List (String × String))
    (hnames : g1.uniforms.map Prod.fst = g2.uniforms.map Prod.fst)
    (htypes : ∀ n ∈ g1.uniforms.map Prod.fst, ud1.lookup n = ud2.lookup n) :
    getSignature g1 ud1 = getSignature g2 ud2 := by
  unfold getSignature
  rw [sigStrings_eq_of_names_eq g1.uniforms g2.uniforms ud1 ud2 hnames htypes]

/-- Witness for C2: two groups with members `u, v` holding different values
under the same introspection table get the same signature. -/
theorem getSignature_value_independent_witness :
    getSignature
        { uniforms := [("u", 3), ("v", 4)], static := false, dirtyId := 0, syncUniforms := [] }
        [("u", "float"), ("v", "vec2")]
      = getSignature
        { uniforms := [("u", 8), ("v", 9)], static := true, dirtyId := 5, syncUniforms := [] }
        [("u", "float"), ("v", "vec2")] :=
  getSignature_value_independent _ _ _ _ (by decide) (by decide)

/-- Claim C10: two UniformGroups with different member names for which
`getSignature` returns the same key: the single member `"a-b"` and the
member pair `"a"`, `"b"` both encode to `"a-b"` because the parts are
joined with `'-'` without escaping. -/
theorem getSignature_collision :
    getSignature
        { uniforms := [("a-b", 0)], static := false, dirtyId := 0, syncUniforms := [] } []
      = getSignature
        { uniforms := [("a", 1), ("b", 2)], static := false, dirtyId := 0, syncUniforms := [] } []
    ∧ ([("a-b", 0)] : List (String × Nat)).map Prod.fst
        ≠ ([("a", 1), ("b", 2)] : List (String × Nat)).map Prod.fst := by
  exact ⟨rfl, by decide⟩

/-- Claim C8: when the host environment does not support the
dynamic-code-generation mechanism (unsafe-eval), the constructor raises an
error immediately and produces no system instance. -/
theorem construct_fails_without_unsafe_eval :
    constructShaderSystem false =
      Except.error ("Current environment does not allow unsafe-eval, "
        ++ "please use @pixi/unsafe-eval module to enable support.") := rfl

/-- Claim C9: `reset` clears exactly the bound-shader and bound-program
tracking state; the global signature-keyed routine cache, the program heap
(hence every program's per-context CompiledProgram map), the group heap and
the context identity are unchanged. -/
theorem reset_clears_only_binding (s : SSState) :
    (reset s).shader = none ∧ (reset s).program = none ∧
    (reset s).cache = s.cache ∧ (reset s).programs = s.programs ∧
    (reset s).groups = s.groups ∧ (reset s).contextUID = s.contextUID :=
  ⟨rfl, rfl, rfl, rfl, rfl, rfl⟩

/-- Claim C6 counterexample: at a concrete state with no bound shader,
`setUniforms` dereferences the null `this.shader` and throws (modelled as
`none`), so it is not an error-free no-op. -/
theorem setUniforms_unbound_counterexample :
    setUniforms { programs := [], groups := [], shader := none, program := none,
                  cache := [], contextUID := 0, nextRoutineId := 0, nextHandle := 0 } = none := rfl

/-- Claim C6 (amended): `setUniforms` raises a TypeError (null dereference,
modelled as `none`) whenever no shader is currently bound; in particular it
performs no upload, but it is not silent. -/
theorem setUniforms_unbound_throws (s : SSState) (h : s.shader = none) :
    setUniforms s = none := by
  unfold setUniforms
  rw [h]

/-- What a successful `createSyncGroups` guarantees: the system had a bound
shader, a live program and a live group; bound-state tracking, the program
heap, the context id and the handle counter are untouched; afterwards the
returned routine sits in the global cache under the group's signature and
in the group's own `syncUniforms` under the bound program's id, and no
other group is touched. -/
lemma createSyncGroups_spec {s : SSState} {g : Nat} {s' : SSState} {r : Nat}
    (h : createSyncGroups s g = some (s', r)) :
    ∃ sh p group,
      s.shader = some sh ∧
      s.programs.lookup sh.programId = some p ∧
      s.groups.lookup g = some group ∧
      s'.shader = s.shader ∧ s'.program = s.program ∧ s'.programs = s.programs ∧
      s'.contextUID = s.contextUID ∧ s'.nextHandle = s.nextHandle ∧
      s'.cache.lookup (getSignature group p.uniformData) = some r ∧
      s'.groups.lookup g =
        some { group with syncUniforms := alSet sh.programId r group.syncUniforms } ∧
      (∀ g2, g2 ≠ g → s'.groups.lookup g2 = s.groups.lookup g2) := by
  cases hsh : s.shader with
  | none => simp [createSyncGroups, hsh] at h
  | some sh =>
    cases hp : s.programs.lookup sh.programId with
    | none => simp [createSyncGroups, hsh, hp] at h
    | some p =>
      cases hg : s.groups.lookup g with
      | none => simp [createSyncGroups, hsh, hp, hg] at h
      | some group =>
        cases hc : s.cache.lookup (getSignature group p.uniformData) with
        | some r0 =>
          simp only [createSyncGroups, hsh, hp, hg, hc, Option.some.injEq,
            Prod.mk.injEq] at h
          obtain ⟨h1, h2⟩ := h
          subst h1
          subst h2
          refine ⟨sh, p, group, rfl, hp, rfl, rfl, rfl, rfl, rfl, rfl, hc, ?_, ?_⟩
          · exact alSet_lookup_self g _ s.groups
          · intro g2 hg2
            exact alSet_lookup_ne g g2 _ hg2 s.groups
        | none =>
          simp only [createSyncGroups, hsh, hp, hg, hc, Option.some.injEq,
            Prod.mk.injEq] at h
          obtain ⟨h1, h2⟩ := h
          subst h1
          subst h2
          refine ⟨sh, p, group, rfl, hp, rfl, rfl, rfl, rfl, rfl, rfl, ?_, ?_, ?_⟩
          · exact alSet_lookup_self _ _ s.cache
          · exact alSet_lookup_self g _ s.groups
          · intro g2 hg2
            exact alSet_lookup_ne g g2 _ hg2 s.groups

/-- What a successful `syncUniforms` guarantees: exactly one routine
invocation (the upload) against the supplied `GLProgram`; bound-state
tracking, the program heap, the context id and the handle counter are
untouched; the group afterwards has the invoked routine in its per-program
cache for the bound program, with `static`, `dirtyId` and members
unchanged, and no other group is touched. -/
lemma syncUniforms_spec {s : SSState} {g : Nat} {gp : GLProgram} {s' : SSState}
    {ev : List Event} (h : syncUniforms s g gp = some (s', ev)) :
    ∃ sh group group' r,
      s.shader = some sh ∧
      s.groups.lookup g = some group ∧
      ev = [Event.runSync r gp.program g] ∧
      s'.shader = s.shader ∧ s'.program = s.program ∧ s'.programs = s.programs ∧
      s'.contextUID = s.contextUID ∧ s'.nextHandle = s.nextHandle ∧
      s'.groups.lookup g = some group' ∧
      group'.static = group.static ∧ group'.dirtyId = group.dirtyId ∧
      group'.uniforms = group.uniforms ∧
      group'.syncUniforms.lookup sh.programId = some r ∧
      (∀ g2, g2 ≠ g → s'.groups.lookup g2 = s.groups.lookup g2) := by
  cases hsh : s.shader with
  | none => simp [syncUniforms, hsh] at h
  | some sh =>
    cases hg : s.groups.lookup g with
    | none => simp [syncUniforms, hsh, hg] at h
    | some group =>
      cases hl : group.syncUniforms.lookup sh.programId with
      | some r =>
        simp only [syncUniforms, hsh, hg, hl, Option.some.injEq, Prod.mk.injEq] at h
        obtain ⟨h1, h2⟩ := h
        subst h1
        subst h2
        exact ⟨sh, group, group, r, rfl, rfl, rfl, hsh, rfl, rfl, rfl, rfl, hg,
          rfl, rfl, rfl, hl, fun _ _ => rfl⟩
      | none =>
        cases hcs : createSyncGroups s g with
        | none => simp [syncUniforms, hsh, hg, hl, hcs] at h
        | some pr =>
          obtain ⟨s2, r⟩ := pr
          simp only [syncUniforms, hsh, hg, hl, hcs, Option.some.injEq,
            Prod.mk.injEq] at h
          obtain ⟨h1, h2⟩ := h
          subst h1
          subst h2
          obtain ⟨sh0, p0, group0, hsh0, hp0, hg0, hshp, hprp, hpsp, hctx, hnh,
            hcache, hgl, hother⟩ := createSyncGroups_spec hcs
          rw [hsh] at hsh0
          injection hsh0 with hsh0
          subst hsh0
          rw [hg] at hg0
          injection hg0 with hg0
          subst hg0
          refine ⟨sh, group, _, r, rfl, rfl, rfl, hshp.trans hsh, hprp, hpsp,
            hctx, hnh, hgl, rfl, rfl, rfl, ?_, hother⟩
          exact alSet_lookup_self sh.programId r group.syncUniforms

/-- What a successful `syncUniformGroup` guarantees: a shader was bound
with a compiled program for the current context; the trace contains no
program switch and no compilation; bound-state tracking, context id and
handle counter are untouched; the bound program's `GLProgram` for the
current context survives with the same GPU handle, entries for other
contexts are untouched, and so are all other programs. -/
lemma syncUniformGroup_spec {s : SSState} {g : Nat} {s' : SSState} {ev : List Event}
    (h : syncUniformGroup s g = some (s', ev)) :
    ∃ sh p gp,
      s.shader = some sh ∧
      s.programs.lookup sh.programId = some p ∧
      p.glPrograms.lookup s.contextUID = some gp ∧
      s'.shader = s.shader ∧ s'.program = s.program ∧
      s'.contextUID = s.contextUID ∧ s'.nextHandle = s.nextHandle ∧
      countUse ev = 0 ∧ countCompile ev = 0 ∧
      (∃ p' gp', s'.programs.lookup sh.programId = some p' ∧
         p'.glPrograms.lookup s.contextUID = some gp' ∧ gp'.program = gp.program ∧
         (∀ ctx, ctx ≠ s.contextUID → p'.glPrograms.lookup ctx = p.glPrograms.lookup ctx)) ∧
      (∀ pid, pid ≠ sh.programId → s'.programs.lookup pid = s.programs.lookup pid) := by
  cases hg : s.groups.lookup g with
  | none => simp [syncUniformGroup, hg] at h
  | some group =>
    cases hsh : s.shader with
    | none => simp [syncUniformGroup, hg, hsh] at h
    | some sh =>
      cases hp : s.programs.lookup sh.programId with
      | none => simp [syncUniformGroup, hg, hsh, hp] at h
      | some p =>
        cases hgp : p.glPrograms.lookup s.contextUID with
        | none => simp [syncUniformGroup, hg, hsh, hp, hgp] at h
        | some gp =>
          simp only [syncUniformGroup, hg, hsh, hp, hgp] at h
          split at h
          · obtain ⟨sh2, group2, group', r, hsh2, hg2, hev, hshp, hprp, hpsp,
              hctx, hnh, hgl', hst, hdi, hun, hlsync, hoth⟩ := syncUniforms_spec h
            have hsh2' : (some sh : Option ShaderRef) = some sh2 := hsh2
            injection hsh2' with hsh2'
            subst hsh2'
            refine ⟨sh, p, gp, rfl, hp, hgp, hshp, hprp, hctx, hnh, ?_, ?_, ?_, ?_⟩
            · rw [hev]
              rfl
            · rw [hev]
              rfl
            · refine ⟨{ p with glPrograms := alSet s.contextUID ({ gp with uniformGroups := alSet g group.dirtyId gp.uniformGroups }) p.glPrograms },
                { gp with uniformGroups := alSet g group.dirtyId gp.uniformGroups },
                ?_, ?_, rfl, ?_⟩
              · rw [hpsp]
                exact alSet_lookup_self _ _ _
              · exact alSet_lookup_self _ _ _
              · intro ctx hctx2
                exact alSet_lookup_ne _ _ _ hctx2 _
            · intro pid hpid
              rw [hpsp]
              exact alSet_lookup_ne _ _ _ hpid _
          · rename_i hcond
            simp only [Option.some.injEq, Prod.mk.injEq] at h
            obtain ⟨h1, h2⟩ := h
            subst h1
            subst h2
            exact ⟨sh, p, gp, rfl, hp, hgp, hsh, rfl, rfl, rfl, rfl, rfl,
              ⟨p, gp, hp, hgp, rfl, fun _ _ => rfl⟩, fun _ _ => rfl⟩

/-- Claim C1: for a static group whose dirtyId is not yet recorded against
the bound program's `GLProgram`, `syncUniformGroup` performs exactly one
routine invocation (the upload), and calling it again on the resulting
state — the group unmutated, so its dirtyId unchanged — is a no-op: same
state, empty trace. -/
theorem static_group_upload_once {s : SSState} {g : Nat} {group : UniformGroup}
    {sh : ShaderRef} {p : Program} {gp : GLProgram} {s' : SSState} {ev : List Event}
    (hg : s.groups.lookup g = some group) (hstatic : group.static = true)
    (hsh : s.shader = some sh)
    (hp : s.programs.lookup sh.programId = some p)
    (hgp : p.glPrograms.lookup s.contextUID = some gp)
    (hdirty : gp.uniformGroups.lookup g ≠ some group.dirtyId)
    (h1 : syncUniformGroup s g = some (s', ev)) :
    (∃ r, ev = [Event.runSync r gp.program g]) ∧
    syncUniformGroup s' g = some (s', []) := by
  simp only [syncUniformGroup, hg, hsh, hp, hgp] at h1
  rw [if_pos (Or.inr hdirty)] at h1
  obtain ⟨sh2, group2, group', r, hsh2, hg2, hev, hshp, hprp, hpsp,
    hctx, hnh, hgl', hst, hdi, hun, hlsync, hoth⟩ := syncUniforms_spec h1
  have hsh2' : (some sh : Option ShaderRef) = some sh2 := hsh2
  injection hsh2' with hsh2'
  subst hsh2'
  have hg2' : s.groups.lookup g = some group2 := hg2
  rw [hg] at hg2'
  injection hg2' with hg2'
  subst hg2'
  constructor
  · exact ⟨r, hev⟩
  · have hshp2 : s'.shader = some sh := hshp
    have hctx2 : s'.contextUID = s.contextUID := hctx
    have hps : s'.programs.lookup sh.programId =
        some { p with glPrograms := alSet s.contextUID ({ gp with uniformGroups := alSet g group.dirtyId gp.uniformGroups }) p.glPrograms } := by
      rw [hpsp]
      exact alSet_lookup_self _ _ _
    have hstat' : group'.static = true := by rw [hst, hstatic]
    have hdi' : (some group.dirtyId : Option Nat) = some group'.dirtyId := by rw [hdi]
    simp only [syncUniformGroup, hgl', hshp2, hps, hctx2, alSet_lookup_self, hstat', hdi']
    simp

/-- Witness for C1: in the concrete witness world, the first
`syncUniformGroup` performs exactly the one upload of routine 100, and a
second call on the resulting state is a no-op. -/
theorem static_group_upload_once_witness :
    (∃ r, [Event.runSync 100 200 0] = [Event.runSync r 200 0]) ∧
    syncUniformGroup wStateSynced 0 = some (wStateSynced, []) :=
  @static_group_upload_once wState 0 wGroup wShader wProgram wGLProgram wStateSynced
    [Event.runSync 100 200 0] rfl rfl rfl rfl rfl (by decide) (by decide)

/-- Claim C7: when the sync routine is generated on a global-cache miss, it
is stored in the global cache under the group's signature AND in the
group's `syncUniforms` under the bound program's id, and a repeated
`syncUniforms` of the same group against the same program returns the
routine from the per-program entry with no state change (so neither the
global cache nor the signature is needed again). -/
theorem sync_routine_cached_both_ways {s : SSState} {g : Nat} {s' : SSState} {r : Nat}
    {sh : ShaderRef} {p : Program} {group : UniformGroup}
    (hsh : s.shader = some sh)
    (hp : s.programs.lookup sh.programId = some p)
    (hg : s.groups.lookup g = some group)
    (hmiss : s.cache.lookup (getSignature group p.uniformData) = none)
    (h : createSyncGroups s g = some (s', r)) :
    s'.cache.lookup (getSignature group p.uniformData) = some r ∧
    (∃ group', s'.groups.lookup g = some group' ∧
       group'.syncUniforms.lookup sh.programId = some r) ∧
    (∀ gp : GLProgram, syncUniforms s' g gp = some (s', [Event.runSync r gp.program g])) := by
  obtain ⟨sh0, p0, group0, hsh0, hp0, hg0, hshp, hprp, hpsp, hctx, hnh, hcache,
    hgl, hother⟩ := createSyncGroups_spec h
  rw [hsh] at hsh0
  injection hsh0 with e1
  subst e1
  rw [hp] at hp0
  injection hp0 with e2
  subst e2
  rw [hg] at hg0
  injection hg0 with e3
  subst e3
  have hsh' : s'.shader = some sh := by rw [hshp, hsh]
  refine ⟨hcache, ⟨_, hgl, alSet_lookup_self _ _ _⟩, ?_⟩
  intro gp
  simp only [syncUniforms, hsh', hgl, alSet_lookup_self]

/-- Witness for C7: in the concrete witness world, `createSyncGroups`
produces routine 100, cached globally under `"u-float"` and on the group
under program id 0, and repeated syncs are served from the group entry. -/
theorem sync_routine_cached_both_ways_witness :
    wStateRoutine.cache.lookup (getSignature wGroup wProgram.uniformData) = some 100 ∧
    (∃ group', wStateRoutine.groups.lookup 0 = some group' ∧
       group'.syncUniforms.lookup wShader.programId = some 100) ∧
    (∀ gp : GLProgram, syncUniforms wStateRoutine 0 gp
       = some (wStateRoutine, [Event.runSync 100 gp.program 0])) :=
  @sync_routine_cached_both_ways wState 0 wStateRoutine 100 wShader wProgram wGroup
    rfl rfl rfl rfl (by decide)

/-- Counting program switches distributes over trace concatenation. -/
lemma countUse_append (a b : List Event) :
    countUse (a ++ b) = countUse a + countUse b := by
  simp [countUse, List.filter_append]

/-- Counting compilations distributes over trace concatenation. -/
lemma countCompile_append (a b : List Event) :
    countCompile (a ++ b) = countCompile a + countCompile b := by
  simp [countCompile, List.filter_append]

/-- `bindSwitch` in closed form: the tracked program becomes the bound one,
and a `useProgram` event is emitted exactly when it was not already the
tracked one. -/
lemma bindSwitch_eq (s2 : SSState) (shader : ShaderRef) (gp : GLProgram) :
    bindSwitch s2 shader gp =
      ({ s2 with program := some shader.programId },
       if s2.program = some shader.programId then []
       else [Event.useProgram gp.program]) := by
  unfold bindSwitch
  by_cases h : s2.program = some shader.programId
  · simp only [h, ne_eq, not_true_eq_false, if_false, if_pos h]
    cases s2
    simp_all
  · simp [h]

/-- `bindSync` either returns its inputs unchanged (`dontSync`) or defers
to `syncUniformGroup`, appending that trace; the returned `GLProgram` is
always the resolved one. -/
lemma bindSync_spec {s3 : SSState} {ev12 : List Event} {glProgram : GLProgram}
    {shader : ShaderRef} {d : Bool} {s' : SSState} {ev : List Event} {gpOut : GLProgram}
    (h : bindSync s3 ev12 glProgram shader d = some (s', ev, gpOut)) :
    gpOut = glProgram ∧
    ((s' = s3 ∧ ev = ev12) ∨
     (∃ ev3, syncUniformGroup s3 shader.groupId = some (s', ev3) ∧ ev = ev12 ++ ev3)) := by
  unfold bindSync at h
  cases d with
  | true =>
    rw [if_pos rfl] at h
    simp only [Option.some.injEq, Prod.mk.injEq] at h
    obtain ⟨h1, h2, h3⟩ := h
    exact ⟨h3.symm, Or.inl ⟨h1.symm, h2.symm⟩⟩
  | false =>
    rw [if_neg (by simp)] at h
    cases hs : syncUniformGroup s3 shader.groupId with
    | none => rw [hs] at h; exact Option.noConfusion h
    | some pr =>
      obtain ⟨s4, ev3⟩ := pr
      rw [hs] at h
      simp only [Option.some.injEq, Prod.mk.injEq] at h
      obtain ⟨h1, h2, h3⟩ := h
      subst h1
      subst h2
      exact ⟨h3.symm, Or.inr ⟨ev3, rfl, rfl⟩⟩

/-- What a successful `bind` guarantees: the shader and its program become
the tracked bound ones; the context is unchanged; a `useProgram` is issued
exactly when the resolved program was not tracked; a compilation happens
exactly when the program had no `GLProgram` for the current context; the
returned `GLProgram` is the cached one on a hit and the freshly compiled
one (handle `s.nextHandle`) on a miss; afterwards the program still has a
`GLProgram` for the current context with the returned handle, and its
entries for all other contexts are untouched. -/
lemma bind_spec {s : SSState} {sh : ShaderRef} {d : Bool} {s' : SSState}
    {ev : List Event} {gp : GLProgram}
    (h : bind s sh d = some (s', ev, gp)) :
    ∃ p, s.programs.lookup sh.programId = some p ∧
      s'.shader = some sh ∧ s'.program = some sh.programId ∧
      s'.contextUID = s.contextUID ∧
      countUse ev = (if s.program = some sh.programId then 0 else 1) ∧
      countCompile ev = (if (p.glPrograms.lookup s.contextUID).isSome then 0 else 1) ∧
      (∀ gpc, p.glPrograms.lookup s.contextUID = some gpc → gp = gpc) ∧
      (p.glPrograms.lookup s.contextUID = none →
         gp = { program := s.nextHandle, uniformGroups := [] }) ∧
      (∃ p' gp', s'.programs.lookup sh.programId = some p' ∧
         p'.glPrograms.lookup s.contextUID = some gp' ∧ gp'.program = gp.program ∧
         (∀ ctx, ctx ≠ s.contextUID → p'.glPrograms.lookup ctx = p.glPrograms.lookup ctx)) := by
  cases hp : s.programs.lookup sh.programId with
  | none => simp [bind, hp] at h
  | some p =>
    refine ⟨p, rfl, ?_⟩
    cases hgl : p.glPrograms.lookup s.contextUID with
    | some gpc =>
      simp only [bind, hp, hgl, bindSwitch_eq] at h
      obtain ⟨hgpOut, hrest⟩ := bindSync_spec h
      subst hgpOut
      rcases hrest with ⟨hs', hev⟩ | ⟨ev3, hsync, hev⟩
      · subst hs'
        refine ⟨rfl, rfl, rfl, ?_, ?_, ?_, ?_, ?_⟩
        · rw [hev]
          by_cases hpr : s.program = some sh.programId <;>
            simp [hpr, countUse, isUseProgram]
        · rw [hev]
          by_cases hpr : s.program = some sh.programId <;>
            simp [hpr, countCompile, isCompile]
        · exact fun gpc' h' => Option.some.inj h'
        · intro h'
          exact Option.noConfusion h'
        · exact ⟨p, gp, hp, hgl, rfl, fun _ _ => rfl⟩
      · obtain ⟨sh2, p2, gp2, hsh2, hp2, hgp2, hshp, hprp, hctx, hnh, hcU, hcC,
          ⟨p'', gp'', hps'', hgp'', hgpprog, hoctx⟩, hopid⟩ := syncUniformGroup_spec hsync
        have hsh2' : (some sh : Option ShaderRef) = some sh2 := hsh2
        injection hsh2' with e
        subst e
        have hp2' : s.programs.lookup sh.programId = some p2 := hp2
        rw [hp] at hp2'
        injection hp2' with e
        subst e
        have hgp2' : p.glPrograms.lookup s.contextUID = some gp2 := hgp2
        rw [hgl] at hgp2'
        injection hgp2' with e
        subst e
        refine ⟨hshp, hprp, hctx, ?_, ?_, ?_, ?_, ?_⟩
        · rw [hev, countUse_append, hcU]
          by_cases hpr : s.program = some sh.programId <;>
            simp [hpr, countUse, isUseProgram]
        · rw [hev, countCompile_append, hcC]
          by_cases hpr : s.program = some sh.programId <;>
            simp [hpr, countCompile, isCompile]
        · exact fun gpc' h' => Option.some.inj h'
        · intro h'
          exact Option.noConfusion h'
        · exact ⟨p'', gp'', hps'', hgp'', hgpprog, hoctx⟩
    | none =>
      simp only [bind, hp, hgl, generateShader, bindSwitch_eq] at h
      obtain ⟨hgpOut, hrest⟩ := bindSync_spec h
      subst hgpOut
      rcases hrest with ⟨hs', hev⟩ | ⟨ev3, hsync, hev⟩
      · subst hs'
        refine ⟨rfl, rfl, rfl, ?_, ?_, ?_, ?_, ?_⟩
        · rw [hev, countUse_append]
          by_cases hpr : s.program = some sh.programId <;>
            simp [hpr, countUse, isUseProgram]
        · rw [hev, countCompile_append]
          by_cases hpr : s.program = some sh.programId <;>
            simp [hpr, countCompile, isCompile]
        · intro gpc' h'
          exact Option.noConfusion h'
        · intro _
          rfl
        · refine ⟨{ p with glPrograms := alSet s.contextUID ({ program := s.nextHandle, uniformGroups := [] }) p.glPrograms },
            { program := s.nextHandle, uniformGroups := [] }, ?_, ?_, rfl, ?_⟩
          · exact alSet_lookup_self _ _ _
          · exact alSet_lookup_self _ _ _
          · intro ctx hctx2
            exact alSet_lookup_ne _ _ _ hctx2 _
      · obtain ⟨sh2, p2, gp2, hsh2, hp2, hgp2, hshp, hprp, hctx, hnh, hcU, hcC,
          ⟨p'', gp'', hps'', hgp'', hgpprog, hoctx⟩, hopid⟩ := syncUniformGroup_spec hsync
        have hsh2' : (some sh : Option ShaderRef) = some sh2 := hsh2
        injection hsh2' with e
        subst e
        have hp2' : (alSet sh.programId ({ p with glPrograms := alSet s.contextUID ({ program := s.nextHandle, uniformGroups := [] }) p.glPrograms }) s.programs).lookup sh.programId = some p2 := hp2
        rw [alSet_lookup_self] at hp2'
        injection hp2' with e
        subst e
        have hgp2' : (alSet s.contextUID ({ program := s.nextHandle, uniformGroups := [] }) p.glPrograms).lookup s.contextUID = some gp2 := hgp2
        rw [alSet_lookup_self] at hgp2'
        injection hgp2' with e
        subst e
        refine ⟨hshp, hprp, hctx, ?_, ?_, ?_, ?_, ?_⟩
        · rw [hev, countUse_append, countUse_append, hcU]
          by_cases hpr : s.program = some sh.programId <;>
            simp [hpr, countUse, isUseProgram]
        · rw [hev, countCompile_append, countCompile_append, hcC]
          by_cases hpr : s.program = some sh.programId <;>
            simp [hpr, countCompile, isCompile]
        · intro gpc' h'
          exact Option.noConfusion h'
        · intro _
          rfl
        · refine ⟨p'', gp'', hps'', hgp'', hgpprog, ?_⟩
          intro ctx hctx2
          rw [hoctx ctx hctx2]
          exact alSet_lookup_ne _ _ _ hctx2 _

/-- Claim C3: in any sequence of bind calls, the GPU use-program call is
issued exactly at the calls where the resolved program differs from the
currently tracked bound program, and never otherwise: each bind emits one
`useProgram` when `this.program` was not the bound shader's program and
none when it was, and afterwards the shader's program is the tracked one
(hence bind(A), bind(A), bind(B), bind(A) switches on calls 1, 3, 4 only). -/
theorem bind_switches_exactly_on_program_change {s : SSState} {sh : ShaderRef}
    {d : Bool} {s' : SSState} {ev : List Event} {gp : GLProgram}
    (h : bind s sh d = some (s', ev, gp)) :
    countUse ev = (if s.program = some sh.programId then 0 else 1) ∧
    s'.program = some sh.programId := by
  obtain ⟨p, hp, hsh', hpr', hctx, hcU, hcC, h7, h8, h9⟩ := bind_spec h
  exact ⟨hcU, hpr'⟩

/-- Witness for C3: the sequence bind(A), bind(A), bind(B), bind(A) from
`cS0` issues `useProgram` on calls 1, 3 and 4 only, not on call 2. -/
theorem bind_switches_exactly_on_program_change_witness :
    (countUse [Event.compileProgram 0, Event.useProgram 50] = 1 ∧ cS1.program = some 0) ∧
    (countUse ([] : List Event) = 0 ∧ cS1.program = some 0) ∧
    (countUse [Event.compileProgram 1, Event.useProgram 51] = 1 ∧ cS3.program = some 1) ∧
    (countUse [Event.useProgram 50] = 1 ∧ cS4.program = some 0) := by
  have t1 := @bind_switches_exactly_on_program_change cS0 cA true cS1
    [Event.compileProgram 0, Event.useProgram 50]
    ({ program := 50, uniformGroups := [] }) (by decide)
  have t2 := @bind_switches_exactly_on_program_change cS1 cA true cS1 []
    ({ program := 50, uniformGroups := [] }) (by decide)
  have t3 := @bind_switches_exactly_on_program_change cS1 cB true cS3
    [Event.compileProgram 1, Event.useProgram 51]
    ({ program := 51, uniformGroups := [] }) (by decide)
  have t4 := @bind_switches_exactly_on_program_change cS3 cA true cS4
    [Event.useProgram 50]
    ({ program := 50, uniformGroups := [] }) (by decide)
  exact ⟨⟨t1.1.trans (by decide), t1.2⟩, ⟨t2.1.trans (by decide), t2.2⟩,
    ⟨t3.1.trans (by decide), t3.2⟩, ⟨t4.1.trans (by decide), t4.2⟩⟩

/-- Claim C4: two distinct Shader instances referencing the same
ShaderProgram, bound in succession under a fixed context: the pair of binds
compiles at most once (the first bind at most once, the second not at all,
reusing the cached CompiledProgram), the second bind issues no GPU program
switch, and both binds resolve to the same GPU program handle — because
`bind` compares by program identity, not shader identity. -/
theorem shared_program_no_recompile_no_switch {s : SSState} {s1 s2 : ShaderRef}
    {d1 d2 : Bool} {sA sB : SSState} {ev1 ev2 : List Event} {gp1 gp2 : GLProgram}
    (hdistinct : s1.id ≠ s2.id) (hshare : s1.programId = s2.programId)
    (h1 : bind s s1 d1 = some (sA, ev1, gp1))
    (h2 : bind sA s2 d2 = some (sB, ev2, gp2)) :
    countCompile ev1 ≤ 1 ∧ countCompile ev2 = 0 ∧ countUse ev2 = 0 ∧
    gp2.program = gp1.program := by
  obtain ⟨p, hp, hshA, hprA, hctxA, hcU1, hcC1, h7, h8,
    ⟨p', gp', hps', hgp', hgpprog, hoctx⟩⟩ := bind_spec h1
  obtain ⟨q, hq, hshB, hprB, hctxB, hcU2, hcC2, g7, g8, g9⟩ := bind_spec h2
  rw [← hshare] at hq
  rw [hps'] at hq
  injection hq with e
  subst e
  have hgp'' : p'.glPrograms.lookup sA.contextUID = some gp' := by
    rw [hctxA]
    exact hgp'
  refine ⟨?_, ?_, ?_, ?_⟩
  · rw [hcC1]
    by_cases hx : (p.glPrograms.lookup s.contextUID).isSome <;> simp [hx]
  · rw [hcC2, hgp'']
    rfl
  · rw [hcU2, hprA, hshare]
    simp
  · rw [g7 gp' hgp'', hgpprog]

/-- Witness for C4: binding shader `cA` and then the distinct shader `cA2`
(same program 0): one compilation in call 1, none in call 2, no switch in
call 2, same handle 50. -/
theorem shared_program_no_recompile_no_switch_witness :
    countCompile [Event.compileProgram 0, Event.useProgram 50] ≤ 1 ∧
    countCompile ([] : List Event) = 0 ∧ countUse ([] : List Event) = 0 ∧
    ({ program := 50, uniformGroups := [] } : GLProgram).program
      = ({ program := 50, uniformGroups := [] } : GLProgram).program :=
  @shared_program_no_recompile_no_switch cS0 cA cA2 true true cS1 cS2A
    [Event.compileProgram 0, Event.useProgram 50] []
    ({ program := 50, uniformGroups := [] }) ({ program := 50, uniformGroups := [] })
    (by decide) rfl (by decide) (by decide)

/-- Claim C5: after a contextChange to identity `newUid`, the next bind of
a shader compiles exactly when its program has no GLProgram entry stored
under `newUid`; when it compiles, the returned handle is the fresh one,
distinct from every handle stored under any old identity (given those
handles predate the fresh counter value); when an entry for `newUid`
exists, it is returned without compiling; and the entries stored under all
other identities are left in place, not purged. -/
theorem contextChange_bind_lazy_recompile {s : SSState} {newUid : Nat}
    {sh : ShaderRef} {d : Bool} {p : Program} {s' : SSState} {ev : List Event}
    {gp : GLProgram}
    (hp : s.programs.lookup sh.programId = some p)
    (hfresh : ∀ cg ∈ p.glPrograms, cg.2.program ≠ s.nextHandle)
    (h : bind (contextChange s newUid) sh d = some (s', ev, gp)) :
    ((p.glPrograms.lookup newUid).isSome →
       countCompile ev = 0 ∧ (∀ gpc, p.glPrograms.lookup newUid = some gpc → gp = gpc)) ∧
    (p.glPrograms.lookup newUid = none →
       countCompile ev = 1 ∧ gp.program = s.nextHandle ∧
       (∀ oldUid gpOld, p.glPrograms.lookup oldUid = some gpOld →
          gp.program ≠ gpOld.program)) ∧
    (∃ p', s'.programs.lookup sh.programId = some p' ∧
       ∀ ctx, ctx ≠ newUid → p'.glPrograms.lookup ctx = p.glPrograms.lookup ctx) := by
  obtain ⟨p0, hp0, hsh', hpr', hctx, hcU, hcC, h7, h8, h9⟩ := bind_spec h
  have hp0' : s.programs.lookup sh.programId = some p0 := hp0
  rw [hp] at hp0'
  injection hp0' with e
  subst e
  have hcC' : countCompile ev = if (p.glPrograms.lookup newUid).isSome then 0 else 1 := hcC
  have h7' : ∀ gpc, p.glPrograms.lookup newUid = some gpc → gp = gpc := h7
  have h8' : p.glPrograms.lookup newUid = none →
      gp = { program := s.nextHandle, uniformGroups := [] } := h8
  have h9' : ∃ p' gp', s'.programs.lookup sh.programId = some p' ∧
      p'.glPrograms.lookup newUid = some gp' ∧ gp'.program = gp.program ∧
      (∀ ctx, ctx ≠ newUid → p'.glPrograms.lookup ctx = p.glPrograms.lookup ctx) := h9
  refine ⟨?_, ?_, ?_⟩
  · intro hsome
    refine ⟨?_, h7'⟩
    rw [hcC', if_pos hsome]
  · intro hnone
    have hgpfresh : gp = ({ program := s.nextHandle, uniformGroups := [] } : GLProgram) :=
      h8' hnone
    refine ⟨?_, ?_, ?_⟩
    · rw [hcC', hnone]
      rfl
    · rw [hgpfresh]
    · intro oldUid gpOld hlook
      have hne : gpOld.program ≠ s.nextHandle := hfresh (oldUid, gpOld) (lookup_mem hlook)
      rw [hgpfresh]
      exact fun e => hne e.symm
  · obtain ⟨p', gp', hps', hgp', hgpprog, hoctx⟩ := h9'
    exact ⟨p', hps', hoctx⟩

/-- Witness for C5: `dS` holds handle 7 under context 0; after
`contextChange` to context 1, `bind(A)` compiles exactly once, returns the
fresh handle 30 (distinct from 7), and leaves the context-0 entry in
place. -/
theorem contextChange_bind_lazy_recompile_witness :
    ((dProg.glPrograms.lookup 1).isSome →
       countCompile [Event.compileProgram 0, Event.useProgram 30] = 0 ∧
       (∀ gpc, dProg.glPrograms.lookup 1 = some gpc →
          ({ program := 30, uniformGroups := [] } : GLProgram) = gpc)) ∧
    (dProg.glPrograms.lookup 1 = none →
       countCompile [Event.compileProgram 0, Event.useProgram 30] = 1 ∧
       ({ program := 30, uniformGroups := [] } : GLProgram).program = dS.nextHandle ∧
       (∀ oldUid gpOld, dProg.glPrograms.lookup oldUid = some gpOld →
          ({ program := 30, uniformGroups := [] } : GLProgram).program ≠ gpOld.program)) ∧
    (∃ p', dSPost.programs.lookup cA.programId = some p' ∧
       ∀ ctx, ctx ≠ 1 → p'.glPrograms.lookup ctx = dProg.glPrograms.lookup ctx) :=
  @contextChange_bind_lazy_recompile dS 1 cA true dProg dSPost
    [Event.compileProgram 0, Event.useProgram 30]
    ({ program := 30, uniformGroups := [] }) (by decide) (by decide) (by decide)

/-- Witness for the amended C6. -/
theorem setUniforms_unbound_throws_witness :
    setUniforms { programs := [(0, { uniformData := [], glPrograms := [] })], groups := [],
                  shader := none, program := some 0, cache := [], contextUID := 2,
                  nextRoutineId := 0, nextHandle := 0 } = none :=
  setUniforms_unbound_throws _ rfl

end Pixi
